import Mathlib

/-!
Verification development for the agenticextraction repository: the
document-analysis orchestration engine and its three agent verification
algorithms (passport MRZ checksum, financial worthiness, education grade
conversion), the session state machine, the frontend result transformation
(`transformResult` in `document_analysis_ui/frontend/src/services/api.ts`)
and the SSE progress subscription (`subscribeToProgress` in the same file).

Numbers that are JavaScript/Python floats in the source are modelled as
rationals (ℚ); TypeScript `T | undefined` and `T | null` field states are
both modelled as `Option` (`none`), which is faithful here because every
operator the transforms apply (`||`, `??`, `?.`) treats `undefined` and
`null` identically.
-/

/-! ## MRZ checksum (PassportExtractionAgent)

Modelled from the spec: the checksum routine of the passport agent is not in
the repository snapshot (only `passport_analysis_agent/README.md` documents
it); per the spec, letters A-Z map to 10-35, the filler `<` maps to 0,
digits map to themselves, each position is multiplied by the weights cycling
`[7,3,1]`, and the string validates when the sum mod 10 equals the check
digit. -/

def mrzCharValue (c : Char) : Nat :=
  if '0' ≤ c ∧ c ≤ '9' then c.toNat - ('0').toNat
  else if 'A' ≤ c ∧ c ≤ 'Z' then c.toNat - ('A').toNat + 10
  else 0

def mrzWeight (i : Nat) : Nat :=
  if i % 3 = 0 then 7 else if i % 3 = 1 then 3 else 1

def mrzWeightedSum (s : List Char) : Nat :=
  (s.enum.map (fun p => mrzWeight p.1 * mrzCharValue p.2)).sum

def mrzChecksum (s : List Char) : Nat :=
  mrzWeightedSum s % 10

def mrzValidate (s : List Char) (check : Nat) : Bool :=
  mrzChecksum s == check

def mrzSample : String := "L898902C3<"

/-! ## Financial worthiness evaluation (FinancialExtractionAgent)

Modelled from the spec: the financial agent's `Evaluator` is not in the
repository snapshot (only the financial agent README and the `SummaryTab`
UI consumer are); per the spec §4.4, a missing EUR amount or a statement
period shorter than `bank_statement_period` yields `INCONCLUSIVE` with
remarks stating the missing basis, otherwise `amount_eur ≥ threshold`
yields `PASS` and `amount_eur < threshold` yields `FAIL`. -/

inductive WorthinessStatus
  | PASS
  | FAIL
  | INCONCLUSIVE
deriving DecidableEq

def missingAmountRemark : String :=
  "INCONCLUSIVE: no EUR amount available to compare against the threshold"

def shortPeriodRemark : String :=
  "INCONCLUSIVE: statement period is shorter than the required bank_statement_period"

def passRemark : String :=
  "PASS: converted EUR amount meets or exceeds the configured threshold"

def failRemark : String :=
  "FAIL: converted EUR amount is below the configured threshold"

def evaluateWorthiness (amount_eur : Option ℚ) (threshold : ℚ)
    (period_months required_months : ℚ) : WorthinessStatus × String :=
  match amount_eur with
  | none => (.INCONCLUSIVE, missingAmountRemark)
  | some amt =>
    if period_months < required_months then (.INCONCLUSIVE, shortPeriodRemark)
    else if threshold ≤ amt then (.PASS, passRemark)
    else (.FAIL, failRemark)

/-! ## Grade conversion (EducationExtractionAgent)

Modelled from the spec: the education agent's interpolation code is not in
the repository snapshot (only the education agent README's
`numeric_ranges` bucket format is); per the spec §4.5, the original grade
is located in a bucket and linearly interpolated within that bucket's
`[min,max] → [french_min,french_max]` range. -/

structure GradeBucket where
  min_value : ℚ
  max_value : ℚ
  french_min : ℚ
  french_max : ℚ
deriving DecidableEq

def GradeBucket.contains (b : GradeBucket) (x : ℚ) : Prop :=
  b.min_value ≤ x ∧ x ≤ b.max_value

def convertGrade (b : GradeBucket) (x : ℚ) : ℚ :=
  b.french_min +
    (x - b.min_value) * (b.french_max - b.french_min) / (b.max_value - b.min_value)

/-! ## Session state machine (SessionManager)

Modelled from the spec: the backend SessionManager is not in the repository
snapshot (only its HTTP tests in the playwright suite and the frontend
`canStartAnalysis` / `DropZone` consumers are); per the spec §4.1, a
session starts in `created`, adding or removing documents is allowed only
in `created`/`uploading`, unsupported file types are rejected with a
ValidationError naming the allowed set {pdf, png, jpg/jpeg, tiff},
`startProcessing` fails with ValidationError "No documents" on an empty
document list and otherwise transitions to `processing` spawning one run,
and terminal transitions leave `processing` for `completed`/`failed`. -/

inductive SessionStatus
  | created
  | uploading
  | processing
  | completed
  | failed
deriving DecidableEq

structure ValidationError where
  httpStatus : Nat
  detail : String
deriving DecidableEq

def noDocumentsError : ValidationError :=
  ⟨400, "No documents"⟩

def unsupportedTypeError : ValidationError :=
  ⟨400, "Unsupported file type. Allowed types: pdf, png, jpg/jpeg, tiff"⟩

/-- Accepted upload mime types, from `ACCEPTED_TYPES` in
`DropZone` (src/unnamed/part_010). -/
def acceptedMimeTypes : List String :=
  ["application/pdf", "image/png", "image/jpeg", "image/tiff"]

def isAcceptedType (mime : String) : Bool :=
  acceptedMimeTypes.contains mime

structure UploadedDoc where
  filename : String
  mime : String
deriving DecidableEq

structure SessionState where
  status : SessionStatus
  documents : List UploadedDoc
  runsSpawned : Nat
deriving DecidableEq

def initialSession : SessionState :=
  ⟨.created, [], 0⟩

def addDocument (s : SessionState) (d : UploadedDoc) :
    Except ValidationError SessionState :=
  if s.status = .created ∨ s.status = .uploading then
    if isAcceptedType d.mime then
      .ok { s with status := .uploading, documents := s.documents ++ [d] }
    else
      .error unsupportedTypeError
  else
    .error ⟨409, "Session is not accepting documents"⟩

def startProcessing (s : SessionState) : Except ValidationError SessionState :=
  if s.documents.isEmpty then
    .error noDocumentsError
  else
    .ok { s with status := .processing, runsSpawned := s.runsSpawned + 1 }

inductive SessionOp
  | addDoc (d : UploadedDoc)
  | removeDoc (filename : String)
  | start
  | completeRun
  | failRun
  | cancel

/-- A rejected operation leaves the session state untouched. -/
def orKeep (s : SessionState) : Except ValidationError SessionState → SessionState
  | .ok s' => s'
  | .error _ => s

@[simp]
lemma orKeep_ok (s s' : SessionState) : orKeep s (.ok s') = s' := rfl

@[simp]
lemma orKeep_error (s : SessionState) (e : ValidationError) :
    orKeep s (.error e) = s := rfl

def applyOp (s : SessionState) : SessionOp → SessionState
  | .addDoc d => orKeep s (addDocument s d)
  | .removeDoc f =>
    if s.status = .created ∨ s.status = .uploading then
      { s with documents := s.documents.filter (fun d => !(d.filename == f)) }
    else s
  | .start => orKeep s (startProcessing s)
  | .completeRun => if s.status = .processing then { s with status := .completed } else s
  | .failRun => if s.status = .processing then { s with status := .failed } else s
  | .cancel => if s.status = .processing then { s with status := .failed } else s

def runSession (ops : List SessionOp) : SessionState :=
  ops.foldl applyOp initialSession

/-- The invariant relating an empty document list to the pre-processing
statuses: no history can reach `processing`/`completed`/`failed` with an
empty document list. -/
def SessionInv (s : SessionState) : Prop :=
  s.documents = [] → s.status = .created ∨ s.status = .uploading

lemma sessionInv_step {s : SessionState} (h : SessionInv s) (op : SessionOp) :
    SessionInv (applyOp s op) := by
  cases op with
  | addDoc d =>
    simp only [applyOp, addDocument]
    split_ifs with hs hacc
    · intro hnil
      simp at hnil
    · exact h
    · exact h
  | removeDoc f =>
    simp only [applyOp]
    split_ifs with hs
    · intro _
      exact hs
    · exact h
  | start =>
    simp only [applyOp, startProcessing]
    split_ifs with hemp
    · exact h
    · intro hnil
      simp only [orKeep_ok] at hnil
      rw [List.isEmpty_iff] at hemp
      exact absurd hnil hemp
  | completeRun =>
    simp only [applyOp]
    split_ifs with hs
    · intro hnil
      rcases h hnil with hc | hc <;> rw [hs] at hc <;> cases hc
    · exact h
  | failRun =>
    simp only [applyOp]
    split_ifs with hs
    · intro hnil
      rcases h hnil with hc | hc <;> rw [hs] at hc <;> cases hc
    · exact h
  | cancel =>
    simp only [applyOp]
    split_ifs with hs
    · intro hnil
      rcases h hnil with hc | hc <;> rw [hs] at hc <;> cases hc
    · exact h

lemma sessionInv_foldl (ops : List SessionOp) :
    ∀ s : SessionState, SessionInv s → SessionInv (ops.foldl applyOp s) := by
  induction ops with
  | nil => intro s h; exact h
  | cons op rest ih =>
    intro s h
    exact ih _ (sessionInv_step h op)

lemma sessionInv_run (ops : List SessionOp) : SessionInv (runSession ops) := by
  apply sessionInv_foldl
  intro _
  left
  rfl

/-! ## Frontend result transformation (`transformResult` in
`document_analysis_ui/frontend/src/services/api.ts`)

Embedded from the source. The JavaScript expression `x || null` yields
`null` for `undefined`, `null`, `0` and `""` and keeps any other value; it
is modelled by `jsOrNullQ`/`jsOrNullS`. The expression `x ?? d` keeps every
non-nullish value (including `0`, `false` and `""`) and is modelled by
`Option.getD` / the identity. -/

def jsOrNullQ (x : Option ℚ) : Option ℚ :=
  match x with
  | some v => if v == 0 then none else some v
  | none => none

def jsOrNullS (x : Option String) : Option String :=
  match x with
  | some v => if v == "" then none else some v
  | none => none

structure BackendMrzData where
  document_type : Option String := none
  raw_line1 : Option String := none
  raw_line2 : Option String := none
  checksum_valid : Option Bool := none
deriving DecidableEq

structure BackendPassportDetails where
  first_name : Option String := none
  last_name : Option String := none
  date_of_birth : Option String := none
  sex : Option String := none
  passport_number : Option String := none
  issuing_country : Option String := none
  issue_date : Option String := none
  expiry_date : Option String := none
  mrz_data : Option BackendMrzData := none
  accuracy_score : Option ℚ := none
  confidence_level : Option String := none
  remarks : Option String := none
  french_equivalence : Option String := none
deriving DecidableEq

structure BackendFinancialSummary where
  document_type : Option String := none
  account_holder_name : Option String := none
  bank_name : Option String := none
  base_currency : Option String := none
  amount_original : Option ℚ := none
  amount_eur : Option ℚ := none
  financial_threshold_eur : Option ℚ := none
  worthiness_status : Option String := none
  remarks : Option String := none
  french_equivalence : Option String := none
deriving DecidableEq

structure BackendEducationSummary where
  highest_qualification : Option String := none
  institution : Option String := none
  country : Option String := none
  student_name : Option String := none
  final_grade_original : Option String := none
  french_equivalent_grade_0_20 : Option ℚ := none
  validation_status : Option String := none
  remarks : Option String := none
  french_equivalence : Option String := none
deriving DecidableEq

structure BackendCrossValidation where
  name_match : Option Bool := none
  name_match_score : Option ℚ := none
  dob_match : Option Bool := none
  remarks : Option String := none
deriving DecidableEq

structure ProcessingMetadata where
  total_documents_scanned : Nat
  documents_by_category : List (String × Nat)
  processing_errors : List String
  processing_warnings : List String
  processing_time_seconds : ℚ
deriving DecidableEq

def defaultMetadata : ProcessingMetadata :=
  ⟨0, [], [], [], 0⟩

structure BackendAnalysisResult where
  passport_details : Option BackendPassportDetails := none
  financial_summary : Option BackendFinancialSummary := none
  education_summary : Option BackendEducationSummary := none
  cross_validation : Option BackendCrossValidation := none
  metadata : Option ProcessingMetadata := none
deriving DecidableEq

structure PassportDetails where
  first_name : Option String
  last_name : Option String
  date_of_birth : Option String
  passport_number : Option String
  issuing_country : Option String
  issue_date : Option String
  expiry_date : Option String
  mrz_line1 : Option String
  mrz_line2 : Option String
  accuracy_score : ℚ
  confidence_level : Option String
  remarks : Option String
  french_equivalence : Option String
deriving DecidableEq

structure FinancialSummary where
  document_type : Option String
  account_holder_name : Option String
  bank_name : Option String
  base_currency : Option String
  amount_original : Option ℚ
  amount_eur : Option ℚ
  worthiness_status : Option String
  remarks : Option String
  french_equivalence : Option String
deriving DecidableEq

structure EducationSummary where
  highest_qualification : Option String
  institution : Option String
  country : Option String
  student_name : Option String
  final_grade_original : Option String
  french_equivalent_grade_0_20 : Option ℚ
  validation_status : Option String
  remarks : Option String
  french_equivalence : Option String
deriving DecidableEq

structure CrossValidation where
  name_match : Option Bool
  name_match_score : Option ℚ
  dob_match : Option Bool
  remarks : Option String
deriving DecidableEq

structure AnalysisResult where
  passport : Option PassportDetails
  financial : Option FinancialSummary
  education : Option EducationSummary
  cross_validation : Option CrossValidation
  metadata : ProcessingMetadata
deriving DecidableEq

def transformResult (backend : BackendAnalysisResult) : AnalysisResult :=
  { passport := backend.passport_details.map (fun p =>
      { first_name := jsOrNullS p.first_name
        last_name := jsOrNullS p.last_name
        date_of_birth := jsOrNullS p.date_of_birth
        passport_number := jsOrNullS p.passport_number
        issuing_country := jsOrNullS p.issuing_country
        issue_date := jsOrNullS p.issue_date
        expiry_date := jsOrNullS p.expiry_date
        mrz_line1 := jsOrNullS (p.mrz_data.bind BackendMrzData.raw_line1)
        mrz_line2 := jsOrNullS (p.mrz_data.bind BackendMrzData.raw_line2)
        accuracy_score := p.accuracy_score.getD 0
        confidence_level := jsOrNullS p.confidence_level
        remarks := jsOrNullS p.remarks
        french_equivalence := jsOrNullS p.french_equivalence })
    financial := backend.financial_summary.map (fun f =>
      { document_type := jsOrNullS f.document_type
        account_holder_name := jsOrNullS f.account_holder_name
        bank_name := jsOrNullS f.bank_name
        base_currency := jsOrNullS f.base_currency
        amount_original := jsOrNullQ f.amount_original
        amount_eur := jsOrNullQ f.amount_eur
        worthiness_status := jsOrNullS f.worthiness_status
        remarks := jsOrNullS f.remarks
        french_equivalence := jsOrNullS f.french_equivalence })
    education := backend.education_summary.map (fun e =>
      { highest_qualification := jsOrNullS e.highest_qualification
        institution := jsOrNullS e.institution
        country := jsOrNullS e.country
        student_name := jsOrNullS e.student_name
        final_grade_original := jsOrNullS e.final_grade_original
        french_equivalent_grade_0_20 := e.french_equivalent_grade_0_20
        validation_status := jsOrNullS e.validation_status
        remarks := jsOrNullS e.remarks
        french_equivalence := jsOrNullS e.french_equivalence })
    cross_validation := backend.cross_validation.map (fun c =>
      { name_match := c.name_match
        name_match_score := jsOrNullQ c.name_match_score
        dob_match := c.dob_match
        remarks := jsOrNullS c.remarks })
    metadata := backend.metadata.getD defaultMetadata }

/-! ## Auto-letter eligibility (ReportView / SummaryTab)

Embedded from `ReportView.tsx` (`passportAccuracy` / `isHighAccuracy`) and
the manual-override modal: the automatic-letter download is offered exactly
when `result.passport?.accuracy_score ?? 0` is at least 70, and the manual
generate button is disabled while the name field is empty. -/

def passportAccuracy (r : AnalysisResult) : ℚ :=
  (r.passport.map PassportDetails.accuracy_score).getD 0

def isHighAccuracy (r : AnalysisResult) : Bool :=
  decide (70 ≤ passportAccuracy r)

def manualGenerateEnabled (manualName : String) : Bool :=
  !(manualName == "")

/-! ## Progress subscription (`subscribeToProgress` in
`document_analysis_ui/frontend/src/services/api.ts`)

Embedded from the source. Each incoming SSE message either fails JSON
parsing (`none`, the catch branch that only logs) or parses to a
`ProgressEvt` (`some e`), in which case the listener calls `onProgress`,
and, when `e.completed || e.error` is truthy, closes the event source and
calls `onError` exactly when `e.error` is truthy, otherwise `onComplete`.
A closed `EventSource` delivers no further messages to the listener. -/

structure ProgressEvt where
  stage_name : String
  stage_index : Nat
  total_stages : Nat
  message : String
  percentage : ℚ
  completed : Bool
  error : Option String
deriving DecidableEq

/-- JavaScript truthiness of a nullable string: `null`/`undefined` and the
empty string are falsy. -/
def jsTruthyStr (x : Option String) : Bool :=
  match x with
  | none => false
  | some s => !(s == "")

/-- The condition `data.completed || data.error` in the listener. -/
def jsTerminal (e : ProgressEvt) : Bool :=
  e.completed || jsTruthyStr e.error

structure SubState where
  delivered : List ProgressEvt
  errorCalls : Nat
  completeCalls : Nat
  closed : Bool
deriving DecidableEq

def initialSub : SubState :=
  ⟨[], 0, 0, false⟩

def subStep (s : SubState) (msg : Option ProgressEvt) : SubState :=
  if s.closed then s
  else
    match msg with
    | none => s
    | some e =>
      let s1 : SubState := { s with delivered := s.delivered ++ [e] }
      if jsTerminal e then
        if jsTruthyStr e.error then
          { s1 with closed := true, errorCalls := s1.errorCalls + 1 }
        else
          { s1 with closed := true, completeCalls := s1.completeCalls + 1 }
      else s1

def subRun (msgs : List (Option ProgressEvt)) : SubState :=
  msgs.foldl subStep initialSub

lemma subStep_closed {s : SubState} (h : s.closed = true) (msg : Option ProgressEvt) :
    subStep s msg = s := by
  simp [subStep, h]

lemma subStep_none (s : SubState) : subStep s none = s := by
  by_cases h : s.closed <;> simp [subStep, h]

lemma foldl_subStep_closed {s : SubState} (h : s.closed = true) :
    ∀ msgs : List (Option ProgressEvt), msgs.foldl subStep s = s := by
  intro msgs
  induction msgs with
  | nil => rfl
  | cons m rest ih => rw [List.foldl_cons, subStep_closed h, ih]

/-- While the channel is open, neither callback has been invoked. -/
lemma subOpen_no_calls :
    ∀ (msgs : List (Option ProgressEvt)) (s : SubState),
      (s.closed = false → s.errorCalls = 0 ∧ s.completeCalls = 0) →
      ((msgs.foldl subStep s).closed = false →
        (msgs.foldl subStep s).errorCalls = 0 ∧ (msgs.foldl subStep s).completeCalls = 0) := by
  intro msgs
  induction msgs with
  | nil => intro s h; exact h
  | cons m rest ih =>
    intro s h
    rw [List.foldl_cons]
    apply ih
    intro hopen
    by_cases hc : s.closed
    · rw [subStep_closed hc] at hopen ⊢
      exact h hopen
    · simp only [Bool.not_eq_true] at hc
      cases m with
      | none => rw [subStep_none] at hopen ⊢; exact h hc
      | some e =>
        simp only [subStep, hc, if_neg Bool.false_ne_true] at hopen ⊢
        split_ifs at hopen ⊢ with ht
        simpa using h hc

/-! ## Pipeline stages (PipelineOrchestrator)

Modelled from the spec: the backend PipelineOrchestrator is not in the
repository snapshot; the stage list is taken from `STAGE_NAMES` in
`useProgress` (src/unnamed/part_000) and `STAGE_LABELS` in
`ProgressView.tsx`, and per the spec §4.2 the run executes exactly these
six stages in order, each emitting progress events tagged with its stage
index and `total_stages`. -/

def pipelineStages : List String :=
  ["DocumentScanner", "DocumentClassifier", "AgentDispatcher",
   "ResultNormalizer", "CrossValidator", "OutputGenerator"]

/-- One progress event of stage `i`, carrying a message and a percentage. -/
def mkStageEvent (i : Nat) (msg : String) (pct : ℚ) : ProgressEvt :=
  ⟨pipelineStages.getD i "", i, pipelineStages.length, msg, pct, false, none⟩

/-- The events a run emits: the stages execute in order, and each stage `i`
contributes the events of its own emissions `emit i`. -/
def pipelineRunEvents (emit : Nat → List (String × ℚ)) : List ProgressEvt :=
  (List.range pipelineStages.length).flatMap
    (fun i => (emit i).map (fun me => mkStageEvent i me.1 me.2))

/-! ## Amended transformation (spec side, for the refinement comparison)

This definition follows the amended claim's words, not the source: absent
agent sections map to `null`; present sections map field-by-field, where a
field transported through JavaScript `||` keeps its value unless it is
unset, the number `0` or the empty string (those become `null`), a field
transported through `??` keeps any present value, and `accuracy_score`
defaults to `0` when unset. -/

def keepUnlessZero (v : Option ℚ) : Option ℚ :=
  v.bind (fun q => if q = 0 then none else some q)

def keepUnlessEmpty (v : Option String) : Option String :=
  v.bind (fun s => if s = "" then none else some s)

def transformResultAmended (backend : BackendAnalysisResult) : AnalysisResult :=
  { passport := backend.passport_details.map (fun p =>
      { first_name := keepUnlessEmpty p.first_name
        last_name := keepUnlessEmpty p.last_name
        date_of_birth := keepUnlessEmpty p.date_of_birth
        passport_number := keepUnlessEmpty p.passport_number
        issuing_country := keepUnlessEmpty p.issuing_country
        issue_date := keepUnlessEmpty p.issue_date
        expiry_date := keepUnlessEmpty p.expiry_date
        mrz_line1 := keepUnlessEmpty (p.mrz_data.bind BackendMrzData.raw_line1)
        mrz_line2 := keepUnlessEmpty (p.mrz_data.bind BackendMrzData.raw_line2)
        accuracy_score := p.accuracy_score.getD 0
        confidence_level := keepUnlessEmpty p.confidence_level
        remarks := keepUnlessEmpty p.remarks
        french_equivalence := keepUnlessEmpty p.french_equivalence })
    financial := backend.financial_summary.map (fun f =>
      { document_type := keepUnlessEmpty f.document_type
        account_holder_name := keepUnlessEmpty f.account_holder_name
        bank_name := keepUnlessEmpty f.bank_name
        base_currency := keepUnlessEmpty f.base_currency
        amount_original := keepUnlessZero f.amount_original
        amount_eur := keepUnlessZero f.amount_eur
        worthiness_status := keepUnlessEmpty f.worthiness_status
        remarks := keepUnlessEmpty f.remarks
        french_equivalence := keepUnlessEmpty f.french_equivalence })
    education := backend.education_summary.map (fun e =>
      { highest_qualification := keepUnlessEmpty e.highest_qualification
        institution := keepUnlessEmpty e.institution
        country := keepUnlessEmpty e.country
        student_name := keepUnlessEmpty e.student_name
        final_grade_original := keepUnlessEmpty e.final_grade_original
        french_equivalent_grade_0_20 := e.french_equivalent_grade_0_20
        validation_status := keepUnlessEmpty e.validation_status
        remarks := keepUnlessEmpty e.remarks
        french_equivalence := keepUnlessEmpty e.french_equivalence })
    cross_validation := backend.cross_validation.map (fun c =>
      { name_match := c.name_match
        name_match_score := keepUnlessZero c.name_match_score
        dob_match := c.dob_match
        remarks := keepUnlessEmpty c.remarks })
    metadata := backend.metadata.getD defaultMetadata }

lemma jsOrNullQ_eq_keepUnlessZero (v : Option ℚ) :
    jsOrNullQ v = keepUnlessZero v := by
  cases v with
  | none => rfl
  | some q =>
    by_cases h : q = 0 <;> simp [jsOrNullQ, keepUnlessZero, h]

lemma jsOrNullS_eq_keepUnlessEmpty (v : Option String) :
    jsOrNullS v = keepUnlessEmpty v := by
  cases v with
  | none => rfl
  | some s =>
    by_cases h : s = "" <;> simp [jsOrNullS, keepUnlessEmpty, h]

/-- The backend payload exhibiting the dropped numeric zero: a financial
summary whose converted amount is exactly `0` EUR. -/
def zeroAmountBackend : BackendAnalysisResult :=
  { financial_summary := some { amount_eur := some 0 } }

/-! ## Claim theorems -/

/-- C1: for every financial evaluation, when a converted EUR amount is
available and the statement period covers the required
`bank_statement_period`, the worthiness verdict is `PASS` exactly when
`amount_eur ≥ threshold` (including equality) and `FAIL` exactly when
`amount_eur < threshold`; when the amount is unavailable or the statement
period is shorter than required, the verdict is `INCONCLUSIVE` and the
remarks state the missing basis. -/
theorem c1_worthiness_verdict
    (amount_eur : Option ℚ) (threshold period_months required_months : ℚ) :
    (∀ a : ℚ, amount_eur = some a → required_months ≤ period_months →
      (((evaluateWorthiness amount_eur threshold period_months required_months).1
          = .PASS ↔ threshold ≤ a) ∧
       ((evaluateWorthiness amount_eur threshold period_months required_months).1
          = .FAIL ↔ a < threshold))) ∧
    (amount_eur = none →
      evaluateWorthiness amount_eur threshold period_months required_months
        = (.INCONCLUSIVE, missingAmountRemark)) ∧
    (∀ a : ℚ, amount_eur = some a → period_months < required_months →
      evaluateWorthiness amount_eur threshold period_months required_months
        = (.INCONCLUSIVE, shortPeriodRemark)) := by
  refine ⟨?_, ?_, ?_⟩
  · rintro a rfl hper
    have hnl : ¬(period_months < required_months) := not_lt.mpr hper
    by_cases hta : threshold ≤ a
    · simp [evaluateWorthiness, hnl, hta, not_lt.mpr hta]
    · simp [evaluateWorthiness, hnl, hta, not_le.mp hta]
  · rintro rfl
    rfl
  · rintro a rfl hlt
    simp [evaluateWorthiness, hlt]

/-- Witness for C1 at concrete inputs: an amount equal to the threshold
passes, a missing amount and a short statement period are inconclusive
with the corresponding remark. -/
theorem c1_worthiness_verdict_witness :
    ((evaluateWorthiness (some 15000) 15000 3 3).1 = .PASS ↔ (15000 : ℚ) ≤ 15000) ∧
    evaluateWorthiness none 15000 3 3 = (.INCONCLUSIVE, missingAmountRemark) ∧
    evaluateWorthiness (some 20000) 15000 2 3 = (.INCONCLUSIVE, shortPeriodRemark) :=
  ⟨((c1_worthiness_verdict (some 15000) 15000 3 3).1 15000 rfl (by norm_num)).1,
   (c1_worthiness_verdict none 15000 3 3).2.1 rfl,
   (c1_worthiness_verdict (some 20000) 15000 2 3).2.2 20000 rfl (by norm_num)⟩

/-- C2: the MRZ checksum maps letters A-Z to 10-35, the filler to 0 and
digits to themselves, uses the weights cycling `[7,3,1]`, accepts exactly
when the weighted sum mod 10 equals the check digit, and in particular the
ICAO 9303 sample string "L898902C3<" validates against check digit 6. -/
theorem c2_mrz_checksum :
    (∀ c : Char, 'A' ≤ c → c ≤ 'Z' → mrzCharValue c = c.toNat - ('A').toNat + 10) ∧
    mrzCharValue '<' = 0 ∧
    (∀ c : Char, '0' ≤ c → c ≤ '9' → mrzCharValue c = c.toNat - ('0').toNat) ∧
    (mrzWeight 0 = 7 ∧ mrzWeight 1 = 3 ∧ mrzWeight 2 = 1 ∧
      ∀ i : Nat, mrzWeight (i + 3) = mrzWeight i) ∧
    (∀ (s : List Char) (check : Nat),
      mrzValidate s check = true ↔ mrzWeightedSum s % 10 = check) ∧
    mrzValidate mrzSample.toList 6 = true := by
  refine ⟨?_, rfl, ?_, ⟨rfl, rfl, rfl, ?_⟩, ?_, by decide⟩
  · intro c h1 h2
    have hnd : ¬('0' ≤ c ∧ c ≤ '9') := by
      rintro ⟨_, hd2⟩
      exact absurd (le_trans h1 hd2) (by decide)
    unfold mrzCharValue
    rw [if_neg hnd, if_pos ⟨h1, h2⟩]
  · intro c h1 h2
    unfold mrzCharValue
    rw [if_pos ⟨h1, h2⟩]
  · intro i
    unfold mrzWeight
    have h3 : (i + 3) % 3 = i % 3 := by omega
    rw [h3]
  · intro s check
    simp [mrzValidate, mrzChecksum]

/-- Witness for C2 at concrete characters: the letter K maps through the
theorem's letter clause, the digit 7 through its digit clause, and the
acceptance criterion instantiates at the sample string. -/
theorem c2_mrz_checksum_witness :
    mrzCharValue 'K' = ('K').toNat - ('A').toNat + 10 ∧
    mrzCharValue '7' = ('7').toNat - ('0').toNat ∧
    (mrzValidate mrzSample.toList 6 = true ↔ mrzWeightedSum mrzSample.toList % 10 = 6) :=
  ⟨c2_mrz_checksum.1 'K' (by decide) (by decide),
   c2_mrz_checksum.2.2.1 '7' (by decide) (by decide),
   c2_mrz_checksum.2.2.2.2.1 mrzSample.toList 6⟩

/-- C3: for every grade bucket mapping `[min,max]` to
`[french_min,french_max]` and any two original values `x < y` in the
bucket, the converted grade of `y` is never lower than that of `x`, and
the boundary values `min` and `max` convert exactly to `french_min` and
`french_max`. -/
theorem c3_grade_interpolation (b : GradeBucket)
    (hrange : b.min_value < b.max_value)
    (hfr : b.french_min ≤ b.french_max) :
    (∀ x y : ℚ, b.contains x → b.contains y → x < y →
      convertGrade b x ≤ convertGrade b y) ∧
    convertGrade b b.min_value = b.french_min ∧
    convertGrade b b.max_value = b.french_max := by
  have hpos : (0 : ℚ) < b.max_value - b.min_value := by linarith
  have hne : b.max_value - b.min_value ≠ 0 := ne_of_gt hpos
  refine ⟨?_, ?_, ?_⟩
  · intro x y _ _ hxy
    unfold convertGrade
    have h1 : (x - b.min_value) * (b.french_max - b.french_min)
        ≤ (y - b.min_value) * (b.french_max - b.french_min) :=
      mul_le_mul_of_nonneg_right (by linarith) (by linarith)
    have h2 := (div_le_div_iff_of_pos_right hpos).mpr h1
    linarith
  · unfold convertGrade
    rw [sub_self]
    simp
  · unfold convertGrade
    field_simp

/-- Witness for C3 at the sample percentage bucket 80-100 → 16-20:
85 converts no higher than 90, and the boundaries convert exactly. -/
theorem c3_grade_interpolation_witness :
    convertGrade ⟨80, 100, 16, 20⟩ 85 ≤ convertGrade ⟨80, 100, 16, 20⟩ 90 ∧
    convertGrade ⟨80, 100, 16, 20⟩ 80 = 16 ∧
    convertGrade ⟨80, 100, 16, 20⟩ 100 = 20 := by
  have h := c3_grade_interpolation ⟨80, 100, 16, 20⟩ (by norm_num) (by norm_num)
  exact ⟨h.1 85 90 ⟨by norm_num, by norm_num⟩ ⟨by norm_num, by norm_num⟩ (by norm_num),
    h.2.1, h.2.2⟩

/-- C4: the automatic-letter path is offered exactly when the passport
summary is present with `accuracy_score ≥ 70`; a null passport summary or
a lower score disables it, leaving only the manual-override generate
button, which requires a non-empty explicit name. -/
theorem c4_auto_letter_eligibility (r : AnalysisResult) :
    (isHighAccuracy r = true ↔
      ∃ p : PassportDetails, r.passport = some p ∧ (70 : ℚ) ≤ p.accuracy_score) ∧
    (r.passport = none → isHighAccuracy r = false) ∧
    (∀ nm : String, manualGenerateEnabled nm = true ↔ nm ≠ "") := by
  refine ⟨?_, ?_, ?_⟩
  · cases hp : r.passport with
    | none =>
      simp only [isHighAccuracy, passportAccuracy, hp, Option.map_none, Option.getD_none,
        decide_eq_true_eq]
      constructor
      · intro h
        norm_num at h
      · rintro ⟨p, hps, _⟩
        cases hps
    | some p =>
      simp [isHighAccuracy, passportAccuracy, hp]
  · intro hp
    simp only [isHighAccuracy, passportAccuracy, hp, Option.map_none, Option.getD_none,
      decide_eq_false_iff_not]
    norm_num
  · intro nm
    simp [manualGenerateEnabled]

/-- Witness for C4: an all-null analysis result is not eligible, and the
manual generate button instantiates at a concrete name. -/
theorem c4_auto_letter_eligibility_witness :
    isHighAccuracy (AnalysisResult.mk none none none none defaultMetadata) = false ∧
    (manualGenerateEnabled "Jordan Doe" = true ↔ "Jordan Doe" ≠ "") :=
  ⟨(c4_auto_letter_eligibility (AnalysisResult.mk none none none none defaultMetadata)).2.1 rfl,
   (c4_auto_letter_eligibility (AnalysisResult.mk none none none none defaultMetadata)).2.2
     "Jordan Doe"⟩

/-- C6: for every history of session operations that leaves the document
list empty, `startProcessing` fails with the ValidationError "No
documents", the session is unchanged (its status still `created` or
`uploading`), and no pipeline run is spawned. -/
theorem c6_start_requires_documents (ops : List SessionOp)
    (hempty : (runSession ops).documents = []) :
    startProcessing (runSession ops) = .error noDocumentsError ∧
    applyOp (runSession ops) .start = runSession ops ∧
    ((runSession ops).status = .created ∨ (runSession ops).status = .uploading) ∧
    (applyOp (runSession ops) .start).runsSpawned = (runSession ops).runsSpawned := by
  have hstat := sessionInv_run ops hempty
  have hse : startProcessing (runSession ops) = .error noDocumentsError := by
    simp [startProcessing, List.isEmpty_iff, hempty]
  refine ⟨hse, ?_, hstat, ?_⟩
  · simp [applyOp, hse]
  · simp [applyOp, hse]

/-- Witness for C6 at the empty history: a fresh session has no documents
and rejects `startProcessing` unchanged. -/
theorem c6_start_requires_documents_witness :
    startProcessing (runSession []) = .error noDocumentsError ∧
    applyOp (runSession []) .start = runSession [] :=
  ⟨(c6_start_requires_documents [] rfl).1, (c6_start_requires_documents [] rfl).2.1⟩

/-- C8: an uploaded file is accepted exactly when its mime type is in the
allowed set {pdf, png, jpg/jpeg, tiff}; any other type is rejected with a
ValidationError (HTTP 400) naming the allowed set, and the rejected upload
leaves the session's document list unchanged. -/
theorem c8_upload_type_validation (s : SessionState) (d : UploadedDoc)
    (hs : s.status = .created ∨ s.status = .uploading) :
    acceptedMimeTypes = ["application/pdf", "image/png", "image/jpeg", "image/tiff"] ∧
    (isAcceptedType d.mime = true →
      addDocument s d =
        .ok { s with status := .uploading, documents := s.documents ++ [d] }) ∧
    (isAcceptedType d.mime = false →
      addDocument s d = .error unsupportedTypeError ∧
      unsupportedTypeError.httpStatus = 400 ∧
      applyOp s (.addDoc d) = s) := by
  refine ⟨rfl, ?_, ?_⟩
  · intro hacc
    simp [addDocument, hs, hacc]
  · intro hacc
    refine ⟨?_, rfl, ?_⟩
    · simp [addDocument, hs, hacc]
    · simp [applyOp, addDocument, hs, hacc]

/-- Witness for C8 at a fresh session: an executable upload is rejected
with the 400 error and leaves the state unchanged, while a pdf upload is
accepted and appended. -/
theorem c8_upload_type_validation_witness :
    addDocument initialSession ⟨"payload.exe", "application/octet-stream"⟩
      = .error unsupportedTypeError ∧
    applyOp initialSession (.addDoc ⟨"payload.exe", "application/octet-stream"⟩)
      = initialSession ∧
    addDocument initialSession ⟨"statement.pdf", "application/pdf"⟩
      = .ok { initialSession with
          status := .uploading,
          documents := initialSession.documents ++ [⟨"statement.pdf", "application/pdf"⟩] } := by
  have h1 := c8_upload_type_validation initialSession
    ⟨"payload.exe", "application/octet-stream"⟩ (Or.inl rfl)
  have h2 := c8_upload_type_validation initialSession
    ⟨"statement.pdf", "application/pdf"⟩ (Or.inl rfl)
  exact ⟨(h1.2.2 (by decide)).1, (h1.2.2 (by decide)).2.2, h2.2.1 (by decide)⟩

/-- A terminal progress event: the run finished cleanly. -/
def completedEvent : ProgressEvt :=
  ⟨"OutputGenerator", 5, 6, "Processing complete", 100, true, none⟩

/-- A progress event whose error field is set, but to the empty string. -/
def emptyErrorEvent : ProgressEvt :=
  ⟨"AgentDispatcher", 2, 6, "agent failure", 40, false, some ""⟩

/-- C5 counterexample: an event whose `error` field is set (to the empty
string, which JavaScript treats as falsy) is delivered, yet the listener
neither closes the event source nor invokes either callback — the claim's
"error field is set" termination condition fails on it. -/
theorem c5_counterexample :
    emptyErrorEvent.error.isSome = true ∧
    (subRun [some emptyErrorEvent]).delivered = [emptyErrorEvent] ∧
    (subRun [some emptyErrorEvent]).closed = false ∧
    (subRun [some emptyErrorEvent]).errorCalls = 0 ∧
    (subRun [some emptyErrorEvent]).completeCalls = 0 :=
  ⟨rfl, rfl, rfl, rfl, rfl⟩

/-- C5 (amended): while the channel is open no callback has been invoked,
and the stream terminates on the first delivered event whose completed
flag is true or whose error field holds a non-empty string: the channel is
closed at that event, exactly one of the completion or error callbacks is
invoked (the error callback exactly when the error field holds a non-empty
string), and no event after that one is delivered. -/
theorem c5_stream_termination (msgs : List (Option ProgressEvt)) :
    ((subRun msgs).closed = false →
      (subRun msgs).errorCalls = 0 ∧ (subRun msgs).completeCalls = 0) ∧
    (∀ (e : ProgressEvt) (rest : List (Option ProgressEvt)),
      (subRun msgs).closed = false → jsTerminal e = true →
      subRun (msgs ++ some e :: rest) =
        { delivered := (subRun msgs).delivered ++ [e]
          errorCalls := if jsTruthyStr e.error then 1 else 0
          completeCalls := if jsTruthyStr e.error then 0 else 1
          closed := true }) := by
  have hbase : initialSub.closed = false →
      initialSub.errorCalls = 0 ∧ initialSub.completeCalls = 0 :=
    fun _ => ⟨rfl, rfl⟩
  constructor
  · exact subOpen_no_calls msgs initialSub hbase
  · intro e rest hopen hterm
    have hcalls := subOpen_no_calls msgs initialSub hbase hopen
    have hexpand : subRun (msgs ++ some e :: rest)
        = rest.foldl subStep (subStep (subRun msgs) (some e)) := by
      simp [subRun, List.foldl_append]
    have hstep : subStep (subRun msgs) (some e) =
        { delivered := (subRun msgs).delivered ++ [e]
          errorCalls := if jsTruthyStr e.error then 1 else 0
          completeCalls := if jsTruthyStr e.error then 0 else 1
          closed := true } := by
      by_cases herr : jsTruthyStr e.error = true
      · simp [subStep, hopen, hterm, herr]
        exact hcalls
      · simp [subStep, hopen, hterm, herr]
        exact hcalls
    rw [hexpand, hstep]
    exact foldl_subStep_closed rfl rest

/-- Witness for C5 at a single clean completion event: the channel closes
on it, the completion callback fires once, the error callback never. -/
theorem c5_stream_termination_witness :
    subRun [some completedEvent] = ⟨[completedEvent], 0, 1, true⟩ := by
  have h := (c5_stream_termination []).2 completedEvent [] rfl rfl
  simpa using h

/-- C7 counterexample: a backend payload whose financial summary has
`amount_eur` set to the number 0 is transformed to a financial summary
whose `amount_eur` is null — the set field does not retain its numeric
zero. -/
theorem c7_counterexample :
    zeroAmountBackend.financial_summary.map BackendFinancialSummary.amount_eur
      = some (some 0) ∧
    (transformResult zeroAmountBackend).financial.map FinancialSummary.amount_eur
      = some none :=
  ⟨rfl, rfl⟩

/-- C7 (amended): `transformResult` maps each absent agent section to a
null summary and each present section field-by-field, where every field
transported through JavaScript `||` becomes null when unset, when set to
the number 0 or when set to the empty string and keeps any other value,
every field transported through `??` keeps any present value, and
`accuracy_score` defaults to 0 when unset. -/
theorem c7_transform_normalization (backend : BackendAnalysisResult) :
    transformResult backend = transformResultAmended backend := by
  unfold transformResult transformResultAmended
  simp only [jsOrNullQ_eq_keepUnlessZero, jsOrNullS_eq_keepUnlessEmpty]

/-- C9: the pipeline executes exactly the six stages DocumentScanner,
DocumentClassifier, AgentDispatcher, ResultNormalizer, CrossValidator,
OutputGenerator in this fixed order, and every progress event a run emits
carries `total_stages = 6` and a `stage_index` identifying one of the six
stages. -/
theorem c9_six_stages :
    pipelineStages = ["DocumentScanner", "DocumentClassifier", "AgentDispatcher",
      "ResultNormalizer", "CrossValidator", "OutputGenerator"] ∧
    pipelineStages.length = 6 ∧
    ∀ (emit : Nat → List (String × ℚ)) (e : ProgressEvt),
      e ∈ pipelineRunEvents emit →
        e.total_stages = 6 ∧ e.stage_index < 6 ∧
        pipelineStages[e.stage_index]? = some e.stage_name := by
  refine ⟨rfl, rfl, ?_⟩
  intro emit e he
  simp only [pipelineRunEvents, List.mem_flatMap, List.mem_range, List.mem_map] at he
  obtain ⟨i, hi, me, _, rfl⟩ := he
  have hi6 : i < 6 := hi
  refine ⟨rfl, hi6, ?_⟩
  show pipelineStages[i]? = some (pipelineStages.getD i "")
  interval_cases i <;> rfl

/-- Witness for C9 at a run whose dispatch stage emits one event. -/
theorem c9_six_stages_witness :
    (mkStageEvent 2 "Processing with AI" 40).total_stages = 6 ∧
    (mkStageEvent 2 "Processing with AI" 40).stage_index < 6 ∧
    pipelineStages[(mkStageEvent 2 "Processing with AI" 40).stage_index]?
      = some (mkStageEvent 2 "Processing with AI" 40).stage_name := by
  have hm : mkStageEvent 2 "Processing with AI" 40
      ∈ pipelineRunEvents (fun _ => [("Processing with AI", (40 : ℚ))]) := by
    apply List.mem_flatMap.mpr
    exact ⟨2, by decide, List.mem_map.mpr
      ⟨("Processing with AI", (40 : ℚ)), List.mem_singleton.mpr rfl, rfl⟩⟩
  exact c9_six_stages.2.2 (fun _ => [("Processing with AI", (40 : ℚ))]) _ hm

/-- C10: an incoming message that fails to parse as JSON is skipped: it
closes nothing, invokes no callback, and the run over any surrounding
messages is exactly the run without it; a subsequent well-formed event is
still delivered to the progress callback. -/
theorem c10_malformed_event_skipped (msgs rest : List (Option ProgressEvt)) :
    subRun (msgs ++ none :: rest) = subRun (msgs ++ rest) ∧
    (∀ e : ProgressEvt, (subRun msgs).closed = false →
      (subRun (msgs ++ [none, some e])).delivered = (subRun msgs).delivered ++ [e]) := by
  constructor
  · simp [subRun, List.foldl_append, subStep_none]
  · intro e hopen
    have hexpand : subRun (msgs ++ [none, some e])
        = subStep (subStep (subRun msgs) none) (some e) := by
      simp [subRun, List.foldl_append]
    rw [hexpand, subStep_none]
    by_cases hterm : jsTerminal e = true
    · by_cases herr : jsTruthyStr e.error = true <;>
        simp [subStep, hopen, hterm, herr]
    · simp [subStep, hopen, hterm]

/-- Witness for C10: after one unparseable message, a well-formed event is
still delivered to a fresh subscription. -/
theorem c10_malformed_event_skipped_witness :
    (subRun ([] ++ [none, some completedEvent])).delivered
      = (subRun []).delivered ++ [completedEvent] :=
  (c10_malformed_event_skipped [] []).2 completedEvent rfl
